import Mathlib

/-!
Verification development for the OpenXcom battlescape movement core:
`src/Battlescape/Position.h` and `src/Battlescape/BattlescapeState.cpp`.

The data types and operations below are shallow embeddings of the C++
source.  `Position` stores its coordinates in `Sint16` fields in the
source, so every operation that writes a component goes through `wrap16`,
the two's-complement narrowing of an `int` result into 16 bits.  C++
integer division on `int` truncates toward zero, which is `Int.tdiv`.
Methods of `BattleUnit`/`BattleSoldier` and of `Pathfinding` whose bodies
are not part of the excerpt are modelled from the specification and are
marked as such in their doc comments.
-/

namespace OpenXcom

/-- Two's-complement narrowing of an `int` value into a signed 16-bit
(`Sint16`) field, as performed by every assignment to `Position.x/y/z`. -/
def wrap16 (n : Int) : Int := (n + 32768) % 65536 - 32768

/-- `Position` from Position.h: an X-Y-Z coordinate triple held in
`Sint16` fields. -/
structure Position where
  x : Int
  y : Int
  z : Int
deriving DecidableEq, Repr

/-- The `Position(int,int,int)` constructor: each `int` argument is
narrowed into the `Sint16` field it initialises. -/
def Position.make (a b c : Int) : Position := ⟨wrap16 a, wrap16 b, wrap16 c⟩

/-- `Position::TileXY`: horizontal tile-to-voxel scale factor. -/
def Position.TileXY : Int := 16

/-- `Position::TileZ`: vertical tile-to-voxel scale factor. -/
def Position.TileZ : Int := 24

/-- `Position::toVoxel`: `Position(x * TileXY, y * TileXY, z * TileZ)`. -/
def Position.toVoxel (p : Position) : Position :=
  Position.make (p.x * Position.TileXY) (p.y * Position.TileXY) (p.z * Position.TileZ)

/-- `Position::toTile`: `Position(x / TileXY, y / TileXY, z / TileZ)`,
with C++ `int` division truncating toward zero. -/
def Position.toTile (p : Position) : Position :=
  Position.make (Int.tdiv p.x Position.TileXY) (Int.tdiv p.y Position.TileXY)
    (Int.tdiv p.z Position.TileZ)

/-- `Position::operator/(const Position&)`: componentwise `int` division
with no zero guard in the source; a zero divisor component is undefined
behaviour in C++ and is modelled as `none`. -/
def Position.divPos (p q : Position) : Option Position :=
  if q.x = 0 ∨ q.y = 0 ∨ q.z = 0 then none
  else some (Position.make (Int.tdiv p.x q.x) (Int.tdiv p.y q.y) (Int.tdiv p.z q.z))

/-- `Position::operator/=(const Position&)`: the same componentwise `int`
division performed in place, again with no zero guard. -/
def Position.divAssignPos (p q : Position) : Option Position :=
  if q.x = 0 ∨ q.y = 0 ∨ q.z = 0 then none
  else some (Position.make (Int.tdiv p.x q.x) (Int.tdiv p.y q.y) (Int.tdiv p.z q.z))

/-- `Position::operator/(const int)`: division of every component by a
scalar, with no zero guard in the source; modelled as `none` at zero. -/
def Position.divInt (p : Position) (v : Int) : Option Position :=
  if v = 0 then none
  else some (Position.make (Int.tdiv p.x v) (Int.tdiv p.y v) (Int.tdiv p.z v))

/-- Motion status of a battle unit (`STATUS_STANDING` / `STATUS_WALKING` /
`STATUS_TURNING`). -/
inductive UnitStatus where
  | standing
  | walking
  | turning
deriving DecidableEq, Repr

/-- The per-unit state that `BattlescapeState::moveUnit` reads and writes
through the `BattleSoldier` interface.  Directions are `int` octant codes
0–7 (with -1 as the pathfinder's empty sentinel). -/
structure BattleSoldier where
  position : Position
  direction : Int
  toDirection : Int
  status : UnitStatus
  walkingPhase : Nat
  destination : Position
  timeUnits : Int
deriving DecidableEq, Repr

/-- Modelled from the spec: a look-at command sets a target facing; the
unit enters Turning only when the target differs from the current facing
(`Standing → Turning: a look-at command sets a target facing different
from current facing`).  The body of `BattleUnit::lookAt(int)` is not in
the excerpt. -/
def BattleSoldier.lookAtDir (s : BattleSoldier) (dir : Int) : BattleSoldier :=
  if dir ≠ s.direction then { s with toDirection := dir, status := .turning }
  else s

/-- Modelled from the spec: while Turning the facing changes by exactly
one octant per tick toward the target facing, and the unit returns to
Standing when the facing reaches the target.  The body of
`BattleUnit::turn` is not in the excerpt. -/
def BattleSoldier.turn (s : BattleSoldier) : BattleSoldier :=
  if s.direction = s.toDirection then { s with status := .standing }
  else
    let delta := (s.toDirection - s.direction) % 8
    let d2 := if delta ≤ 4 then (s.direction + 1) % 8 else (s.direction + 7) % 8
    if d2 = s.toDirection then { s with direction := d2, status := .standing }
    else { s with direction := d2, status := .turning }

/-- Modelled from the spec: entering Walking records the walking
direction and the staged destination tile and resets the walking-phase
counter.  The call carries no cost argument, so no time units can be
deducted here.  The body of `BattleUnit::startWalking` is not in the
excerpt. -/
def BattleSoldier.startWalking (s : BattleSoldier) (dir : Int) (dest : Position) :
    BattleSoldier :=
  { s with direction := dir, destination := dest, status := .walking, walkingPhase := 0 }

/-- Modelled from the spec: the walking-phase counter has a fixed number
of phases per tile (8); one tick advances it by one, and when it reaches
its terminal value the unit's position becomes the previously staged
destination and the status returns to Standing.  The body of
`BattleUnit::keepWalking` is not in the excerpt. -/
def BattleSoldier.keepWalking (s : BattleSoldier) : BattleSoldier :=
  let p := s.walkingPhase + 1
  if 8 ≤ p then
    { s with walkingPhase := 0, position := s.destination, status := .standing }
  else { s with walkingPhase := p }

/-- Modelled from the spec: `getStartDirection() -> direction | -1` — the
next staged direction, or the sentinel -1 if no path is staged.  The body
of `Pathfinding::getStartDirection` is not in the excerpt. -/
def getStartDirection (path : List Int) : Int :=
  match path with
  | [] => -1
  | d :: _ => d

/-- Modelled from the spec: `dequeuePath` consumes the staged path
front-to-back.  In `moveUnit` it is only called after `getStartDirection`
returned a real direction.  The body of `Pathfinding::dequeuePath` is not
in the excerpt. -/
def dequeuePath (path : List Int) : Int × List Int :=
  match path with
  | [] => (-1, [])
  | d :: rest => (d, rest)

/-- The external collaborators `moveUnit` queries: the per-step cost
query `getTUCost(from, direction, unit) -> (cost, resultingPosition)` and
the per-tile footstep sound class (`Tile::getFootstepSound`, 0 = none).
Modelled from the spec as read-only lookups. -/
structure BattleEnv where
  tuCost : Position → Int → Int × Position
  footstepSound : Position → Int

/-- The observable calls `moveUnit` makes on the audio, cursor and map
collaborators during one tick, in order. -/
inductive BattleEv where
  | sound (idx : Int)
  | hideCursor
  | showCursor
  | setViewHeight (z : Int)
deriving DecidableEq, Repr

/-- The state `BattlescapeState::moveUnit` touches: the selected soldier,
the staged path, the cursor-hidden latch (`_map->isCursorHidden()`), the
game cursor's visibility flag, the function-local `static bool moved`
latch, and the map's view height. -/
structure BState where
  soldier : BattleSoldier
  path : List Int
  cursorHidden : Bool
  cursorVisible : Bool
  moved : Bool
  viewHeight : Int
deriving DecidableEq, Repr

/-- First `if` of `moveUnit` (`STATUS_WALKING`): advance the walk via
`keepWalking`, then play the left footstep sound `22 + class*2` when the
walking phase equals 3 and the right footstep sound `23 + class*2` when
it equals 7, keyed by the footstep class of the tile at the soldier's
position, and only when that class is nonzero. -/
def walkBranch (env : BattleEnv) (st : BState) : BState × List BattleEv :=
  if st.soldier.status = .walking then
    let s := st.soldier.keepWalking
    let left :=
      if s.walkingPhase = 3 then
        let c := env.footstepSound s.position
        if c ≠ 0 then [BattleEv.sound (22 + c * 2)] else []
      else []
    let right :=
      if s.walkingPhase = 7 then
        let c := env.footstepSound s.position
        if c ≠ 0 then [BattleEv.sound (23 + c * 2)] else []
      else []
    ({ st with soldier := s }, left ++ right)
  else (st, [])

/-- Second `if` of `moveUnit` (`STATUS_TURNING`): advance the turn. -/
def turnBranch (st : BState) : BState × List BattleEv :=
  if st.soldier.status = .turning then ({ st with soldier := st.soldier.turn }, [])
  else (st, [])

set_option linter.unusedVariables false in
/-- Third `if` of `moveUnit` (`STATUS_STANDING`): consume the `moved`
latch by following the soldier's height, then either turn toward the next
staged direction, dequeue it and start walking (computing the step cost
into the dead local `tu`), or restore the cursor when no direction is
staged and the cursor is hidden. -/
def standBranch (env : BattleEnv) (st : BState) : BState × List BattleEv :=
  if st.soldier.status = .standing then
    let stm :=
      if st.moved then { st with moved := false, viewHeight := st.soldier.position.z }
      else st
    let evm :=
      if st.moved then [BattleEv.setViewHeight st.soldier.position.z] else []
    let dir := getStartDirection stm.path
    if dir ≠ -1 then
      if dir ≠ stm.soldier.direction then
        ({ stm with soldier := stm.soldier.lookAtDir dir }, evm)
      else
        let dq := dequeuePath stm.path
        let costDest := env.tuCost stm.soldier.position dq.1
        let tu := costDest.1
        ({ stm with soldier := stm.soldier.startWalking dq.1 costDest.2,
                    path := dq.2, cursorHidden := true, cursorVisible := false,
                    moved := true },
         evm ++ [BattleEv.hideCursor])
    else if stm.cursorHidden then
      ({ stm with cursorHidden := false, cursorVisible := true },
       evm ++ [BattleEv.showCursor])
    else (stm, evm)
  else (st, [])

/-- `BattlescapeState::moveUnit`: one walk-timer tick.  The three status
branches are sequential `if`s on the soldier's current status, so a
status change made by an earlier branch lets a later branch run in the
same invocation.  Returns the updated state and the ordered collaborator
calls of the tick. -/
def moveUnit (env : BattleEnv) (st : BState) : BState × List BattleEv :=
  let w := walkBranch env st
  let t := turnBranch w.1
  let s := standBranch env t.1
  (s.1, w.2 ++ t.2 ++ s.2)

/-- Mouse button of a map click (`SDL_BUTTON_LEFT` / `SDL_BUTTON_RIGHT` /
anything else). -/
inductive MouseButton where
  | left
  | right
  | other
deriving DecidableEq, Repr

/-- `BUTTONS_AREA`: clicks whose scaled y coordinate lies beyond this
band are in the button bar and are not map commands.  Modelled from the
spec: a fixed bottom band reserved for UI chrome; the comment in
`mapClick` names 140. -/
def BUTTONS_AREA : Int := 140

/-- The collaborator `SavedBattleGame::selectUnit(pos)` queried by
`mapClick`.  Modelled from the spec: returns the unit occupying the
target cell, if any.  Units are identified by an abstract id. -/
structure ClickEnv where
  unitAt : Position → Option Nat

/-- The observable calls `mapClick` makes: updating the selected-soldier
context, refreshing the soldier info display, asking the pathfinder to
calculate a route for a soldier, or a look-at command. -/
inductive ClickEv where
  | selectSoldier (u : Nat)
  | updateInfo (u : Nat)
  | calculate (u : Nat) (pos : Position)
  | lookAt (pos : Position)
deriving DecidableEq, Repr

/-- `BattlescapeState::mapClick`: ignore clicks in the button band; on a
left click, if a unit occupies the clicked cell select it and refresh the
soldier info (and return — no path is calculated), otherwise calculate a
path for the currently selected soldier to the cell; on a right click,
issue a look-at.  Returns the new selected-soldier id and the
collaborator calls. -/
def mapClick (env : ClickEnv) (selected : Nat) (button : MouseButton)
    (yScaled : Int) (pos : Position) : Nat × List ClickEv :=
  if yScaled > BUTTONS_AREA then (selected, [])
  else
    match button with
    | .left =>
      match env.unitAt pos with
      | some u => (u, [ClickEv.selectSoldier u, ClickEv.updateInfo u])
      | none => (selected, [ClickEv.calculate selected pos])
    | .right => (selected, [ClickEv.lookAt pos])
    | .other => (selected, [])

/-- The soldier statistics `updateSoldierInfo` reads
(`Soldier::getName/getTimeUnits/getStamina/getHealth`). -/
structure SoldierStats where
  name : String
  timeUnits : Int
  stamina : Int
  health : Int
deriving DecidableEq, Repr

/-- The widget values `updateSoldierInfo` writes: the name text, and the
number / bar-maximum / bar-value triple of each stat row. -/
structure SoldierDisplay where
  txtName : String
  numTimeUnits : Int
  barTimeUnitsMax : Int
  barTimeUnitsVal : Int
  numEnergy : Int
  barEnergyMax : Int
  barEnergyVal : Int
  numHealth : Int
  barHealthMax : Int
  barHealthVal : Int
  numMorale : Int
  barMoraleMax : Int
  barMoraleVal : Int
deriving DecidableEq, Repr

/-- `BattlescapeState::updateSoldierInfo`: copies name, time units,
stamina and health into both the number widget and the bar's maximum and
value, and writes the constant 100 into the morale number and bar. -/
def updateSoldierInfo (s : SoldierStats) : SoldierDisplay :=
  { txtName := s.name
    numTimeUnits := s.timeUnits
    barTimeUnitsMax := s.timeUnits
    barTimeUnitsVal := s.timeUnits
    numEnergy := s.stamina
    barEnergyMax := s.stamina
    barEnergyVal := s.stamina
    numHealth := s.health
    barHealthMax := s.health
    barHealthVal := s.health
    numMorale := 100
    barMoraleMax := 100
    barMoraleVal := 100 }

/-- `wrap16` is the identity on values already in the `Sint16` range. -/
theorem wrap16_eq_self (n : Int) (h1 : -32768 ≤ n) (h2 : n ≤ 32767) : wrap16 n = n := by
  unfold wrap16
  omega

/-- C9: `updateSoldierInfo` sets each bar's maximum equal to the bar's
displayed current value (time units, energy, health), so every bar
renders full, and writes the constant 100 into the morale number and bar
regardless of the soldier's actual state. -/
theorem c9_bars_always_full_morale_constant (s : SoldierStats) :
    (updateSoldierInfo s).barTimeUnitsMax = (updateSoldierInfo s).barTimeUnitsVal ∧
    (updateSoldierInfo s).barTimeUnitsVal = s.timeUnits ∧
    (updateSoldierInfo s).barEnergyMax = (updateSoldierInfo s).barEnergyVal ∧
    (updateSoldierInfo s).barEnergyVal = s.stamina ∧
    (updateSoldierInfo s).barHealthMax = (updateSoldierInfo s).barHealthVal ∧
    (updateSoldierInfo s).barHealthVal = s.health ∧
    (updateSoldierInfo s).numMorale = 100 ∧
    (updateSoldierInfo s).barMoraleMax = 100 ∧
    (updateSoldierInfo s).barMoraleVal = 100 :=
  ⟨rfl, rfl, rfl, rfl, rfl, rfl, rfl, rfl, rfl⟩

/-- C10: `Position`'s componentwise division operators perform unguarded
integer division — they are defined exactly when every corresponding
divisor component (or the scalar) is nonzero, with no zero check or error
branch at the interface, and `operator/=` computes the same division as
`operator/`. -/
theorem c10_unguarded_componentwise_division :
    (∀ p q : Position,
      (Position.divPos p q).isSome = true ↔ (q.x ≠ 0 ∧ q.y ≠ 0 ∧ q.z ≠ 0)) ∧
    (∀ p q : Position, Position.divAssignPos p q = Position.divPos p q) ∧
    (∀ (p : Position) (v : Int), (Position.divInt p v).isSome = true ↔ v ≠ 0) := by
  refine ⟨?_, ?_, ?_⟩
  · intro p q
    unfold Position.divPos
    by_cases h : q.x = 0 ∨ q.y = 0 ∨ q.z = 0
    · simp only [h, if_true, Option.isSome_none]
      constructor
      · intro hc
        exact absurd hc (by simp)
      · intro hc
        exact absurd h (by tauto)
    · simp only [h, if_false, Option.isSome_some]
      constructor
      · intro _
        push_neg at h
        exact h
      · intro _
        trivial
  · intro p q
    rfl
  · intro p v
    unfold Position.divInt
    by_cases h : v = 0
    · simp [h]
    · simp [h]

theorem c10_unguarded_componentwise_division_witness :
    (Position.divPos ⟨7, 8, 9⟩ ⟨2, -3, 4⟩).isSome = true :=
  (c10_unguarded_componentwise_division.1 ⟨7, 8, 9⟩ ⟨2, -3, 4⟩).mpr (by decide)

/-- C7 counterexample: the claim quantifies over every tile-space
`Position`, but the `Sint16` fields overflow: the tile position
(2048, 0, 0) scales to x = 32768, which wraps to -32768, and the round
trip returns (-2048, 0, 0). -/
theorem c7_roundtrip_fails_on_overflow :
    Position.toTile (Position.toVoxel ⟨2048, 0, 0⟩) ≠ (⟨2048, 0, 0⟩ : Position) := by
  decide

/-- C7 (amended): for every tile position whose scaled components still
fit a `Sint16` (x, y ∈ [-2048, 2047], z ∈ [-1365, 1365]), `toVoxel`
multiplies x and y by `TileXY` and z by `TileZ` exactly, `toTile` divides
truncating toward zero, and the round trip `p.toVoxel().toTile() == p`
holds. -/
theorem c7_scaled_conversion_roundtrip (p : Position)
    (hx : -2048 ≤ p.x ∧ p.x ≤ 2047) (hy : -2048 ≤ p.y ∧ p.y ≤ 2047)
    (hz : -1365 ≤ p.z ∧ p.z ≤ 1365) :
    (Position.toVoxel p).x = p.x * Position.TileXY ∧
    (Position.toVoxel p).y = p.y * Position.TileXY ∧
    (Position.toVoxel p).z = p.z * Position.TileZ ∧
    Position.toTile (Position.toVoxel p) = p := by
  obtain ⟨px, py, pz⟩ := p
  simp only [Position.toVoxel, Position.toTile, Position.make, Position.TileXY,
    Position.TileZ] at *
  have wx : wrap16 (px * 16) = px * 16 := wrap16_eq_self _ (by omega) (by omega)
  have wy : wrap16 (py * 16) = py * 16 := wrap16_eq_self _ (by omega) (by omega)
  have wz : wrap16 (pz * 24) = pz * 24 := wrap16_eq_self _ (by omega) (by omega)
  refine ⟨wx, wy, wz, ?_⟩
  rw [wx, wy, wz, Int.mul_tdiv_cancel px (by decide), Int.mul_tdiv_cancel py (by decide),
    Int.mul_tdiv_cancel pz (by decide)]
  rw [wrap16_eq_self px (by omega) (by omega), wrap16_eq_self py (by omega) (by omega),
    wrap16_eq_self pz (by omega) (by omega)]

theorem c7_scaled_conversion_roundtrip_witness :
    (Position.toVoxel ⟨3, -5, 2⟩).x = 3 * Position.TileXY ∧
    (Position.toVoxel ⟨3, -5, 2⟩).y = -5 * Position.TileXY ∧
    (Position.toVoxel ⟨3, -5, 2⟩).z = 2 * Position.TileZ ∧
    Position.toTile (Position.toVoxel ⟨3, -5, 2⟩) = (⟨3, -5, 2⟩ : Position) :=
  c7_scaled_conversion_roundtrip ⟨3, -5, 2⟩ (by decide) (by decide) (by decide)

/-- Environment for the C1 failing input: the next step costs 4 time
units and leads to tile (1, 0, 0); no tile has a footstep sound. -/
def c1Env : BattleEnv where
  tuCost := fun _ _ => (4, ⟨1, 0, 0⟩)
  footstepSound := fun _ => 0

/-- C1 failing input: a soldier Standing at the origin, facing octant 2
with the staged path `[2, 2]` already aligned, and 0 time units left. -/
def c1St : BState where
  soldier := { position := ⟨0, 0, 0⟩, direction := 2, toDirection := 2,
               status := .standing, walkingPhase := 0,
               destination := ⟨0, 0, 0⟩, timeUnits := 0 }
  path := [2, 2]
  cursorHidden := false
  cursorVisible := true
  moved := false
  viewHeight := 0

/-- C1 (code bug): `moveUnit` computes the step cost returned by
`getTUCost` into a local that is never read, so a step whose cost (4)
exceeds the remaining budget (0) is still dequeued and walked: the
soldier enters Walking toward the step's destination, the path is
partially consumed (`[2, 2]` becomes `[2]`, not empty), and the budget is
neither compared nor deducted. -/
theorem c1_unaffordable_step_still_taken :
    (c1Env.tuCost c1St.soldier.position 2).1 > c1St.soldier.timeUnits ∧
    (moveUnit c1Env c1St).1.soldier.status = .walking ∧
    (moveUnit c1Env c1St).1.path = [2] ∧
    (moveUnit c1Env c1St).1.soldier.timeUnits = c1St.soldier.timeUnits ∧
    (moveUnit c1Env c1St).1.soldier.destination = (⟨1, 0, 0⟩ : Position) := by
  decide

/-- C3: on a left click inside the map area, when a unit occupies the
clicked cell the dispatcher selects that unit and refreshes the soldier
info display and issues no `Pathfinding::calculate` call (independently
of any unit's budget, which the dispatcher never reads); `calculate` is
issued for the currently selected soldier exactly when the cell is
unoccupied. -/
theorem c3_click_on_unit_selects_never_moves (env : ClickEnv) (selected u : Nat)
    (yScaled : Int) (pos : Position) (harea : yScaled ≤ BUTTONS_AREA) :
    (env.unitAt pos = some u →
      mapClick env selected .left yScaled pos
        = (u, [ClickEv.selectSoldier u, ClickEv.updateInfo u]) ∧
      ∀ w q, ClickEv.calculate w q ∉ (mapClick env selected .left yScaled pos).2) ∧
    (env.unitAt pos = none →
      mapClick env selected .left yScaled pos
        = (selected, [ClickEv.calculate selected pos])) := by
  have hy : ¬ yScaled > BUTTONS_AREA := by omega
  constructor
  · intro h
    constructor
    · simp [mapClick, hy, h]
    · intro w q
      simp [mapClick, hy, h]
  · intro h
    simp [mapClick, hy, h]

/-- Click environment for the C3 witness: a single unit with id 5 stands
on tile (1, 1, 0). -/
def c3Env : ClickEnv where
  unitAt := fun p => if p = ⟨1, 1, 0⟩ then some 5 else none

theorem c3_click_on_unit_selects_never_moves_witness :
    mapClick c3Env 0 .left 50 ⟨1, 1, 0⟩
      = (5, [ClickEv.selectSoldier 5, ClickEv.updateInfo 5]) ∧
    mapClick c3Env 0 .left 50 ⟨9, 9, 0⟩
      = (0, [ClickEv.calculate 0 ⟨9, 9, 0⟩]) :=
  ⟨((c3_click_on_unit_selects_never_moves c3Env 0 5 50 ⟨1, 1, 0⟩ (by decide)).1
      (by decide)).1,
   (c3_click_on_unit_selects_never_moves c3Env 0 5 50 ⟨9, 9, 0⟩ (by decide)).2
      (by decide)⟩

/-- The Walking branch of `moveUnit` does nothing unless the soldier is
Walking. -/
theorem walkBranch_skip (env : BattleEnv) (st : BState)
    (h : st.soldier.status ≠ .walking) : walkBranch env st = (st, []) := by
  unfold walkBranch
  rw [if_neg h]

/-- The Turning branch of `moveUnit` does nothing unless the soldier is
Turning. -/
theorem turnBranch_skip (st : BState) (h : st.soldier.status ≠ .turning) :
    turnBranch st = (st, []) := by
  unfold turnBranch
  rw [if_neg h]

/-- The Standing branch of `moveUnit` does nothing unless the soldier is
Standing. -/
theorem standBranch_skip (env : BattleEnv) (st : BState)
    (h : st.soldier.status ≠ .standing) : standBranch env st = (st, []) := by
  unfold standBranch
  rw [if_neg h]

/-- C4: on a walk tick with the soldier Standing and a staged path whose
next direction differs from the current facing, the step is neither
dequeued nor executed — the path is untouched and the unit enters Turning
toward the staged direction with its position and facing unchanged; the
step is dequeued (the unit enters Walking) exactly when the staged
direction equals the facing. -/
theorem c4_standing_misaligned_turns_first (env : BattleEnv) (st : BState)
    (hst : st.soldier.status = .standing)
    (hdir : getStartDirection st.path ≠ -1) :
    (getStartDirection st.path ≠ st.soldier.direction →
      (moveUnit env st).1.path = st.path ∧
      (moveUnit env st).1.soldier.status = .turning ∧
      (moveUnit env st).1.soldier.toDirection = getStartDirection st.path ∧
      (moveUnit env st).1.soldier.direction = st.soldier.direction ∧
      (moveUnit env st).1.soldier.position = st.soldier.position) ∧
    (getStartDirection st.path = st.soldier.direction →
      (moveUnit env st).1.soldier.status = .walking ∧
      (moveUnit env st).1.path = st.path.tail) := by
  have hw : walkBranch env st = (st, []) := walkBranch_skip env st (by simp [hst])
  have ht : turnBranch st = (st, []) := turnBranch_skip st (by simp [hst])
  rcases hp : st.path with _ | ⟨d, rest⟩
  · rw [hp] at hdir
    exact absurd rfl hdir
  · rw [hp] at hdir
    simp only [getStartDirection] at hdir
    constructor
    · intro hne
      simp only [getStartDirection] at hne
      by_cases hm : st.moved <;>
        simp [moveUnit, hw, ht, standBranch, hst, hp, getStartDirection, dequeuePath,
          BattleSoldier.lookAtDir, hne, hdir, hm]
    · intro heq
      simp only [getStartDirection] at heq
      have hd2 : st.soldier.direction ≠ -1 := heq ▸ hdir
      by_cases hm : st.moved <;>
        simp [moveUnit, hw, ht, standBranch, hst, hp, getStartDirection, dequeuePath,
          BattleSoldier.startWalking, heq, hd2, hm]

/-- Environment for the C4 witness: every step costs 4 time units and
leads to tile (1, 0, 0); no tile has a footstep sound. -/
def c4Env : BattleEnv where
  tuCost := fun _ _ => (4, ⟨1, 0, 0⟩)
  footstepSound := fun _ => 0

/-- C4 witness state: a Standing soldier facing octant 0 with the staged
path `[2, 2]`. -/
def c4St : BState where
  soldier := { position := ⟨0, 0, 0⟩, direction := 0, toDirection := 0,
               status := .standing, walkingPhase := 0,
               destination := ⟨0, 0, 0⟩, timeUnits := 10 }
  path := [2, 2]
  cursorHidden := false
  cursorVisible := true
  moved := false
  viewHeight := 0

/-- C4 witness state (aligned case): a Standing soldier already facing
the staged direction. -/
def c4AlSt : BState where
  soldier := { position := ⟨0, 0, 0⟩, direction := 2, toDirection := 2,
               status := .standing, walkingPhase := 0,
               destination := ⟨0, 0, 0⟩, timeUnits := 10 }
  path := [2, 2]
  cursorHidden := false
  cursorVisible := true
  moved := false
  viewHeight := 0

theorem c4_standing_misaligned_turns_first_witness :
    ((moveUnit c4Env c4St).1.path = c4St.path ∧
     (moveUnit c4Env c4St).1.soldier.status = .turning ∧
     (moveUnit c4Env c4St).1.soldier.toDirection = getStartDirection c4St.path ∧
     (moveUnit c4Env c4St).1.soldier.direction = c4St.soldier.direction ∧
     (moveUnit c4Env c4St).1.soldier.position = c4St.soldier.position) ∧
    ((moveUnit c4Env c4AlSt).1.soldier.status = .walking ∧
     (moveUnit c4Env c4AlSt).1.path = c4AlSt.path.tail) :=
  ⟨(c4_standing_misaligned_turns_first c4Env c4St rfl (by decide)).1 (by decide),
   (c4_standing_misaligned_turns_first c4Env c4AlSt rfl (by decide)).2 (by decide)⟩

/-- C8: the three status branches of one `moveUnit` invocation run in
sequence without exclusion — when a Walking step completes during the
tick (the phase counter is at its last value and `keepWalking` returns
the unit to Standing), the same invocation proceeds into the Standing
branch and immediately stages the next action: the tick never ends with
the unit idle in Standing while a path direction is queued, and it either
dequeues the next step (facing aligned) or starts the turn (facing
misaligned). -/
theorem c8_no_idle_tick_between_steps (env : BattleEnv) (st : BState)
    (hw : st.soldier.status = .walking)
    (hph : 7 ≤ st.soldier.walkingPhase)
    (hdir : getStartDirection st.path ≠ -1) :
    (moveUnit env st).1.soldier.status ≠ .standing ∧
    (getStartDirection st.path = st.soldier.direction →
      (moveUnit env st).1.soldier.status = .walking ∧
      (moveUnit env st).1.path = st.path.tail) ∧
    (getStartDirection st.path ≠ st.soldier.direction →
      (moveUnit env st).1.soldier.status = .turning ∧
      (moveUnit env st).1.path = st.path) := by
  rcases hp : st.path with _ | ⟨d, rest⟩
  · rw [hp] at hdir
    exact absurd rfl hdir
  · rw [hp] at hdir
    simp only [getStartDirection] at hdir
    simp only [getStartDirection, List.tail_cons]
    have h8 : 8 ≤ st.soldier.walkingPhase + 1 := by omega
    have h2 : d = st.soldier.direction →
        (moveUnit env st).1.soldier.status = .walking ∧ (moveUnit env st).1.path = rest := by
      intro hd
      have hd2 : st.soldier.direction ≠ -1 := hd ▸ hdir
      by_cases hm : st.moved <;>
        simp [moveUnit, walkBranch, turnBranch, standBranch, BattleSoldier.keepWalking,
          BattleSoldier.startWalking, getStartDirection, dequeuePath, hw, h8, hp, hd, hd2, hm]
    have h3 : ¬ d = st.soldier.direction →
        (moveUnit env st).1.soldier.status = .turning ∧
        (moveUnit env st).1.path = d :: rest := by
      intro hd
      by_cases hm : st.moved <;>
        simp [moveUnit, walkBranch, turnBranch, standBranch, BattleSoldier.keepWalking,
          BattleSoldier.lookAtDir, getStartDirection, dequeuePath, hw, h8, hp, hd, hdir, hm]
    refine ⟨?_, h2, h3⟩
    by_cases hd : d = st.soldier.direction
    · rw [(h2 hd).1]
      simp
    · rw [(h3 hd).1]
      simp

/-- Environment for the C8 witness: every step costs 4 time units and
leads to tile (1, 0, 0); no tile has a footstep sound. -/
def c8Env : BattleEnv where
  tuCost := fun _ _ => (4, ⟨1, 0, 0⟩)
  footstepSound := fun _ => 0

/-- C8 witness state: a Walking soldier at its final phase with a staged
path whose next direction differs from the facing. -/
def c8St : BState where
  soldier := { position := ⟨0, 0, 0⟩, direction := 2, toDirection := 2,
               status := .walking, walkingPhase := 7,
               destination := ⟨1, 0, 0⟩, timeUnits := 10 }
  path := [4]
  cursorHidden := true
  cursorVisible := false
  moved := true
  viewHeight := 0

/-- C8 witness state (aligned case): a Walking soldier at its final
phase whose staged path continues in the facing direction. -/
def c8AlSt : BState where
  soldier := { position := ⟨0, 0, 0⟩, direction := 2, toDirection := 2,
               status := .walking, walkingPhase := 7,
               destination := ⟨1, 0, 0⟩, timeUnits := 10 }
  path := [2]
  cursorHidden := true
  cursorVisible := false
  moved := true
  viewHeight := 0

theorem c8_no_idle_tick_between_steps_witness :
    ((moveUnit c8Env c8St).1.soldier.status ≠ .standing ∧
     (moveUnit c8Env c8St).1.soldier.status = .turning ∧
     (moveUnit c8Env c8St).1.path = c8St.path) ∧
    ((moveUnit c8Env c8AlSt).1.soldier.status = .walking ∧
     (moveUnit c8Env c8AlSt).1.path = c8AlSt.path.tail) :=
  ⟨⟨(c8_no_idle_tick_between_steps c8Env c8St rfl (by decide) (by decide)).1,
    (c8_no_idle_tick_between_steps c8Env c8St rfl (by decide) (by decide)).2.2
      (by decide)⟩,
   (c8_no_idle_tick_between_steps c8Env c8AlSt rfl (by decide) (by decide)).2.1
      (by decide)⟩

/-- Whether a collaborator call is an audio (footstep sound) call. -/
def isSoundEv : BattleEv → Bool
  | .sound _ => true
  | _ => false

/-- The Standing branch never issues an audio call. -/
theorem standBranch_sounds_empty (env : BattleEnv) (st : BState) :
    ((standBranch env st).2.filter isSoundEv) = [] := by
  unfold standBranch
  split_ifs <;> simp [isSoundEv] <;> split_ifs <;> simp [isSoundEv]

/-- C2 counterexample environment: the origin tile has footstep class 1,
every other tile class 2. -/
def c2Env : BattleEnv where
  tuCost := fun _ _ => (4, ⟨1, 0, 0⟩)
  footstepSound := fun p => if p = ⟨0, 0, 0⟩ then 1 else 2

/-- C2 counterexample state: a soldier walking from the origin toward
tile (1, 0, 0), one tick before the phase counter reaches 3. -/
def c2St : BState where
  soldier := { position := ⟨0, 0, 0⟩, direction := 2, toDirection := 2,
               status := .walking, walkingPhase := 2,
               destination := ⟨1, 0, 0⟩, timeUnits := 10 }
  path := []
  cursorHidden := true
  cursorVisible := false
  moved := true
  viewHeight := 0

/-- C2 counterexample: at walking phase 3 the tick plays sound 24, which
is `22 + 2·1` for the class (1) of the tile the unit still occupies — not
`22 + 2·2 = 26` for the class (2) of the destination tile the claim
names. -/
theorem c2_sound_not_keyed_by_destination :
    (moveUnit c2Env c2St).2 = [BattleEv.sound 24] ∧
    22 + c2Env.footstepSound c2St.soldier.destination * 2 = 26 := by
  decide

/-- C2 (amended): on every Walking tick a footstep sound is played
exactly when the advanced walking-phase counter equals 3 or 7 and the
footstep class of the tile at the unit's current position (still the
origin tile of the step, since the position changes only at the terminal
phase) is nonzero — index `22 + 2·class` for the phase-3 (left) step and
`23 + 2·class` for the phase-7 (right) step; no sound otherwise. -/
theorem c2_footstep_sound_schedule (env : BattleEnv) (st : BState)
    (hw : st.soldier.status = .walking) :
    ((moveUnit env st).2.filter isSoundEv) =
      (if st.soldier.walkingPhase + 1 = 3 ∧ env.footstepSound st.soldier.position ≠ 0 then
        [BattleEv.sound (22 + env.footstepSound st.soldier.position * 2)]
      else if st.soldier.walkingPhase + 1 = 7 ∧ env.footstepSound st.soldier.position ≠ 0 then
        [BattleEv.sound (23 + env.footstepSound st.soldier.position * 2)]
      else []) := by
  by_cases h8 : 8 ≤ st.soldier.walkingPhase + 1
  · have hn3 : st.soldier.walkingPhase + 1 ≠ 3 := by omega
    have hn7 : st.soldier.walkingPhase + 1 ≠ 7 := by omega
    simp [moveUnit, walkBranch, turnBranch_skip, standBranch_sounds_empty,
      BattleSoldier.keepWalking, hw, h8, hn3, hn7]
  · by_cases h3 : st.soldier.walkingPhase + 1 = 3 <;>
      by_cases h7 : st.soldier.walkingPhase + 1 = 7
    · omega
    · by_cases hc : env.footstepSound st.soldier.position = 0 <;>
        simp [moveUnit, walkBranch, turnBranch_skip, standBranch_skip,
          BattleSoldier.keepWalking, hw, h8, h3, h7, hc, isSoundEv]
    · by_cases hc : env.footstepSound st.soldier.position = 0 <;>
        simp [moveUnit, walkBranch, turnBranch_skip, standBranch_skip,
          BattleSoldier.keepWalking, hw, h8, h3, h7, hc, isSoundEv]
    · by_cases hc : env.footstepSound st.soldier.position = 0 <;>
        simp [moveUnit, walkBranch, turnBranch_skip, standBranch_skip,
          BattleSoldier.keepWalking, hw, h8, h3, h7, hc, isSoundEv]

/-- C2 witness environment: every tile has footstep class 1. -/
def c2WEnv : BattleEnv where
  tuCost := fun _ _ => (4, ⟨1, 0, 0⟩)
  footstepSound := fun _ => 1

/-- C2 witness state: a walking soldier one tick before phase 3. -/
def c2WSt : BState where
  soldier := { position := ⟨0, 0, 0⟩, direction := 2, toDirection := 2,
               status := .walking, walkingPhase := 2,
               destination := ⟨1, 0, 0⟩, timeUnits := 10 }
  path := []
  cursorHidden := true
  cursorVisible := false
  moved := true
  viewHeight := 0

theorem c2_footstep_sound_schedule_witness :
    ((moveUnit c2WEnv c2WSt).2.filter isSoundEv) =
      (if c2WSt.soldier.walkingPhase + 1 = 3 ∧
          c2WEnv.footstepSound c2WSt.soldier.position ≠ 0 then
        [BattleEv.sound (22 + c2WEnv.footstepSound c2WSt.soldier.position * 2)]
      else if c2WSt.soldier.walkingPhase + 1 = 7 ∧
          c2WEnv.footstepSound c2WSt.soldier.position ≠ 0 then
        [BattleEv.sound (23 + c2WEnv.footstepSound c2WSt.soldier.position * 2)]
      else []) :=
  c2_footstep_sound_schedule c2WEnv c2WSt rfl

/-- The Walking branch never changes the `moved` latch. -/
theorem walkBranch_moved (env : BattleEnv) (st : BState) :
    (walkBranch env st).1.moved = st.moved := by
  unfold walkBranch
  split_ifs <;> rfl

/-- The Turning branch never changes the `moved` latch. -/
theorem turnBranch_moved (st : BState) : (turnBranch st).1.moved = st.moved := by
  unfold turnBranch
  split_ifs <;> rfl

/-- The Turning branch issues no collaborator calls. -/
theorem turnBranch_events (st : BState) : (turnBranch st).2 = [] := by
  unfold turnBranch
  split_ifs <;> rfl

/-- The Walking branch never issues a view-height call. -/
theorem walkBranch_no_view (env : BattleEnv) (st : BState) (z : Int) :
    BattleEv.setViewHeight z ∉ (walkBranch env st).2 := by
  unfold walkBranch
  split_ifs <;> simp

/-- The Standing branch issues no view-height call when the `moved`
latch is clear. -/
theorem standBranch_no_view (env : BattleEnv) (st : BState) (hm : st.moved = false)
    (z : Int) : BattleEv.setViewHeight z ∉ (standBranch env st).2 := by
  by_cases h1 : st.soldier.status = .standing
  · simp [standBranch, hm, h1]
    split_ifs <;> simp
  · simp [standBranch, h1]

/-- C5 counterexample environment: no footstep sounds, constant costs. -/
def c5Env : BattleEnv where
  tuCost := fun _ _ => (4, ⟨0, 0, 0⟩)
  footstepSound := fun _ => 0

/-- C5 counterexample state: a soldier finishing a flat step (origin and
destination share z = 0) with the `moved` latch set and the view height
at level 5. -/
def c5St : BState where
  soldier := { position := ⟨1, 1, 0⟩, direction := 2, toDirection := 2,
               status := .walking, walkingPhase := 7,
               destination := ⟨2, 1, 0⟩, timeUnits := 8 }
  path := []
  cursorHidden := true
  cursorVisible := false
  moved := true
  viewHeight := 5

/-- C5 counterexample: completing a step whose elevation does not change
still issues a view-height call and moves the view height (5 becomes 0),
refuting the "only if the elevation changed" direction of the claim. -/
theorem c5_view_height_updated_without_z_change :
    c5St.soldier.destination.z = c5St.soldier.position.z ∧
    BattleEv.setViewHeight 0 ∈ (moveUnit c5Env c5St).2 ∧
    (moveUnit c5Env c5St).1.viewHeight ≠ c5St.viewHeight := by
  decide

/-- C5 (amended): whenever a Walking step completes on a tick with the
`moved` latch set, the tick issues a view-height call with the unit's new
z and leaves the view height there — unconditionally, whether or not the
elevation changed during the step; and a tick that starts with the latch
clear issues no view-height call at all. -/
theorem c5_view_height_follows_every_step (env : BattleEnv) (st : BState) :
    (st.soldier.status = .walking → 7 ≤ st.soldier.walkingPhase → st.moved = true →
      BattleEv.setViewHeight st.soldier.destination.z ∈ (moveUnit env st).2 ∧
      (moveUnit env st).1.viewHeight = st.soldier.destination.z) ∧
    (st.moved = false → ∀ z, BattleEv.setViewHeight z ∉ (moveUnit env st).2) := by
  constructor
  · intro hw hph hm
    have h8 : 8 ≤ st.soldier.walkingPhase + 1 := by omega
    simp [moveUnit, walkBranch, turnBranch_skip, standBranch, BattleSoldier.keepWalking,
      hw, h8, hm]
    try (split_ifs <;> simp [BattleSoldier.startWalking, BattleSoldier.lookAtDir])
  · intro hm z
    have h1 := walkBranch_no_view env st z
    have ht := turnBranch_events (walkBranch env st).1
    have hm2 : (turnBranch (walkBranch env st).1).1.moved = false := by
      rw [turnBranch_moved, walkBranch_moved, hm]
    have h3 := standBranch_no_view env _ hm2 z
    intro hmem
    simp only [moveUnit] at hmem
    rcases List.mem_append.mp hmem with hab | hc
    · rcases List.mem_append.mp hab with ha | hb
      · exact h1 ha
      · rw [ht] at hb
        cases hb
    · exact h3 hc

/-- C5 witness environment: no footstep sounds, constant costs. -/
def c5WEnv : BattleEnv where
  tuCost := fun _ _ => (4, ⟨0, 0, 0⟩)
  footstepSound := fun _ => 0

/-- C5 witness state: a soldier finishing a climbing step (z goes from 0
to 1) with the `moved` latch set. -/
def c5WSt : BState where
  soldier := { position := ⟨1, 1, 0⟩, direction := 2, toDirection := 2,
               status := .walking, walkingPhase := 7,
               destination := ⟨1, 2, 1⟩, timeUnits := 8 }
  path := []
  cursorHidden := true
  cursorVisible := false
  moved := true
  viewHeight := 0

/-- C5 witness state (latch clear): an idle Standing soldier. -/
def c5IdleSt : BState where
  soldier := { position := ⟨0, 0, 0⟩, direction := 0, toDirection := 0,
               status := .standing, walkingPhase := 0,
               destination := ⟨0, 0, 0⟩, timeUnits := 10 }
  path := []
  cursorHidden := false
  cursorVisible := true
  moved := false
  viewHeight := 0

theorem c5_view_height_follows_every_step_witness :
    (BattleEv.setViewHeight c5WSt.soldier.destination.z ∈ (moveUnit c5WEnv c5WSt).2 ∧
     (moveUnit c5WEnv c5WSt).1.viewHeight = c5WSt.soldier.destination.z) ∧
    BattleEv.setViewHeight 7 ∉ (moveUnit c5WEnv c5IdleSt).2 :=
  ⟨(c5_view_height_follows_every_step c5WEnv c5WSt).1 rfl (by decide) rfl,
   (c5_view_height_follows_every_step c5WEnv c5IdleSt).2 rfl 7⟩

/-- The Walking branch never issues a show-cursor call. -/
theorem walkBranch_no_show (env : BattleEnv) (st : BState) :
    BattleEv.showCursor ∉ (walkBranch env st).2 := by
  unfold walkBranch
  split_ifs <;> simp

/-- The Walking branch preserves the walking-implies-hidden-cursor
invariant. -/
theorem walkBranch_inv (env : BattleEnv) (st : BState)
    (h : st.soldier.status = .walking → st.cursorHidden = true) :
    (walkBranch env st).1.soldier.status = .walking →
    (walkBranch env st).1.cursorHidden = true := by
  unfold walkBranch BattleSoldier.keepWalking
  split_ifs <;> intro h2 <;> simp_all

/-- One octant step of `turn` never leaves the unit Walking. -/
theorem turn_not_walking (s : BattleSoldier) :
    (BattleSoldier.turn s).status ≠ .walking := by
  simp only [BattleSoldier.turn]
  split_ifs <;> simp

/-- The Turning branch preserves the walking-implies-hidden-cursor
invariant. -/
theorem turnBranch_inv (st : BState)
    (h : st.soldier.status = .walking → st.cursorHidden = true) :
    (turnBranch st).1.soldier.status = .walking →
    (turnBranch st).1.cursorHidden = true := by
  unfold turnBranch
  split_ifs with ht
  · intro h2
    exact absurd h2 (by simpa using turn_not_walking st.soldier)
  · exact h

/-- The Standing branch preserves the walking-implies-hidden-cursor
invariant: the only way it produces a Walking soldier is `startWalking`,
which hides the cursor. -/
theorem standBranch_inv (env : BattleEnv) (st : BState)
    (h : st.soldier.status = .walking → st.cursorHidden = true) :
    (standBranch env st).1.soldier.status = .walking →
    (standBranch env st).1.cursorHidden = true := by
  by_cases h1 : st.soldier.status = .standing
  · simp only [standBranch, h1, if_true]
    split_ifs <;> intro h2 <;>
      simp_all [BattleSoldier.lookAtDir, BattleSoldier.startWalking]
  · rw [standBranch_skip env st h1]
    exact h

/-- The Standing branch issues the show-cursor call exactly when the
soldier stands with no staged direction and the cursor is hidden. -/
theorem standBranch_show_iff (env : BattleEnv) (st : BState) :
    BattleEv.showCursor ∈ (standBranch env st).2 ↔
      (st.soldier.status = .standing ∧ getStartDirection st.path = -1 ∧
       st.cursorHidden = true) := by
  by_cases h1 : st.soldier.status = .standing
  · simp only [standBranch, h1, if_true]
    split_ifs <;> simp_all
  · rw [standBranch_skip env st h1]
    simp [h1]

/-- C6: the walking-implies-hidden-cursor invariant is preserved by every
tick (in particular the cursor is hidden from the moment a step starts);
a mid-step Walking tick leaves both cursor flags untouched and issues no
cursor call; the show-cursor call is issued on a tick iff, after the
walk/turn phases of that tick, the soldier stands with no staged
direction (`getStartDirection` = -1) while the cursor is still hidden —
never while a direction is queued; and an idle tick that starts with the
cursor already visible (and the `moved` latch clear) is a complete no-op,
so the restore is not repeated. -/
theorem c6_cursor_visibility_policy (env : BattleEnv) (st : BState) :
    ((st.soldier.status = .walking → st.cursorHidden = true) →
      ((moveUnit env st).1.soldier.status = .walking →
        (moveUnit env st).1.cursorHidden = true)) ∧
    (st.soldier.status = .walking → st.soldier.walkingPhase + 1 < 8 →
      ((moveUnit env st).1.cursorHidden = st.cursorHidden ∧
       (moveUnit env st).1.cursorVisible = st.cursorVisible ∧
       BattleEv.hideCursor ∉ (moveUnit env st).2 ∧
       BattleEv.showCursor ∉ (moveUnit env st).2)) ∧
    (BattleEv.showCursor ∈ (moveUnit env st).2 ↔
      ((turnBranch (walkBranch env st).1).1.soldier.status = .standing ∧
       getStartDirection (turnBranch (walkBranch env st).1).1.path = -1 ∧
       (turnBranch (walkBranch env st).1).1.cursorHidden = true)) ∧
    (st.soldier.status = .standing → getStartDirection st.path = -1 →
      st.cursorHidden = false → st.moved = false →
      moveUnit env st = (st, [])) := by
  refine ⟨?_, ?_, ?_, ?_⟩
  · intro hinv
    have h1 := walkBranch_inv env st hinv
    have h2 := turnBranch_inv _ h1
    have h3 := standBranch_inv env _ h2
    simpa [moveUnit] using h3
  · intro hw hlt
    have h8 : ¬ 8 ≤ st.soldier.walkingPhase + 1 := by omega
    by_cases h3 : st.soldier.walkingPhase + 1 = 3 <;>
      by_cases h7 : st.soldier.walkingPhase + 1 = 7
    · omega
    · by_cases hc : env.footstepSound st.soldier.position = 0 <;>
        simp [moveUnit, walkBranch, turnBranch_skip, standBranch_skip,
          BattleSoldier.keepWalking, hw, h8, h3, h7, hc]
    · by_cases hc : env.footstepSound st.soldier.position = 0 <;>
        simp [moveUnit, walkBranch, turnBranch_skip, standBranch_skip,
          BattleSoldier.keepWalking, hw, h8, h3, h7, hc]
    · by_cases hc : env.footstepSound st.soldier.position = 0 <;>
        simp [moveUnit, walkBranch, turnBranch_skip, standBranch_skip,
          BattleSoldier.keepWalking, hw, h8, h3, h7, hc]
  · have hnsw := walkBranch_no_show env st
    have ht := turnBranch_events (walkBranch env st).1
    constructor
    · intro hmem
      simp only [moveUnit] at hmem
      rcases List.mem_append.mp hmem with hab | hc
      · rcases List.mem_append.mp hab with ha | hb
        · exact absurd ha hnsw
        · rw [ht] at hb
          cases hb
      · exact (standBranch_show_iff env _).mp hc
    · intro hrhs
      have hs := (standBranch_show_iff env _).mpr hrhs
      simp only [moveUnit]
      exact List.mem_append.mpr (Or.inr hs)
  · intro h1 h2 h3 h4
    have hws := walkBranch_skip env st (by simp [h1])
    have hts := turnBranch_skip st (by simp [h1])
    simp [moveUnit, hws, hts, standBranch, h1, h2, h3, h4]

/-- Environment for the C6 witness. -/
def c6Env : BattleEnv where
  tuCost := fun _ _ => (4, ⟨0, 0, 0⟩)
  footstepSound := fun _ => 0

/-- C6 witness state: an idle Standing soldier with no path, the cursor
visible and the `moved` latch clear. -/
def c6St : BState where
  soldier := { position := ⟨0, 0, 0⟩, direction := 0, toDirection := 0,
               status := .standing, walkingPhase := 0,
               destination := ⟨0, 0, 0⟩, timeUnits := 10 }
  path := []
  cursorHidden := false
  cursorVisible := true
  moved := false
  viewHeight := 0

/-- C6 witness state (mid-step): a Walking soldier at phase 0 with the
cursor hidden. -/
def c6WSt : BState where
  soldier := { position := ⟨0, 0, 0⟩, direction := 2, toDirection := 2,
               status := .walking, walkingPhase := 0,
               destination := ⟨1, 0, 0⟩, timeUnits := 10 }
  path := []
  cursorHidden := true
  cursorVisible := false
  moved := true
  viewHeight := 0

theorem c6_cursor_visibility_policy_witness :
    moveUnit c6Env c6St = (c6St, []) ∧
    ((moveUnit c6Env c6WSt).1.cursorHidden = c6WSt.cursorHidden ∧
     (moveUnit c6Env c6WSt).1.cursorVisible = c6WSt.cursorVisible ∧
     BattleEv.hideCursor ∉ (moveUnit c6Env c6WSt).2 ∧
     BattleEv.showCursor ∉ (moveUnit c6Env c6WSt).2) ∧
    (moveUnit c6Env c6WSt).1.cursorHidden = true :=
  ⟨(c6_cursor_visibility_policy c6Env c6St).2.2.2 rfl rfl rfl rfl,
   (c6_cursor_visibility_policy c6Env c6WSt).2.1 rfl (by decide),
   (c6_cursor_visibility_policy c6Env c6WSt).1 (fun _ => rfl) (by decide)⟩

end OpenXcom
